import Mathlib

/-!
Verification development for the Arbiter cross-exchange arbitrage engine.

Shallow embedding of the Rust sources under `src/core/src/`:
`rust_decimal::Decimal` values are modelled as exact rationals (`ℚ`),
timestamps (`chrono::DateTime<Utc>`, compared in milliseconds) as `ℕ`,
and the `u64` cast in the executor's cooldown check is modelled with an
explicit wrap modulo `2 ^ 64`.  Nondeterministic fields of the original
records (UUIDs, wall-clock capture inside constructors) are omitted or
passed explicitly as parameters; every other field is kept.
-/

namespace Arbiter

/-- `Exchange` from `types.rs`: the two supported venues. -/
inductive Exchange where
  | bybit
  | bitget
deriving DecidableEq, Repr

/-- `Ticker` from `types.rs` (the trading pair is kept as its display
string; `timestamp` is dropped — no claim mentions it). -/
structure Ticker where
  exchange : Exchange
  pair : String
  bid : ℚ
  ask : ℚ
  last : ℚ
  volume_24h : ℚ
deriving DecidableEq, Repr

/-- `OrderSide` from `types.rs`. -/
inductive OrderSide where
  | buy
  | sell
deriving DecidableEq, Repr

/-- `OrderType` from `types.rs`. -/
inductive OrderType where
  | market
  | limit
deriving DecidableEq, Repr

/-- `TradeStatus` from `types.rs`. -/
inductive TradeStatus where
  | pending
  | partialFill
  | filled
  | failed
  | cancelled
deriving DecidableEq, Repr

/-- `ArbitrageOpportunity` from `types.rs`; the UUID `id` and the
wall-clock `detected_at` are omitted (nondeterministic, unused by any
claim). -/
structure ArbitrageOpportunity where
  pair : String
  buy_exchange : Exchange
  sell_exchange : Exchange
  buy_price : ℚ
  sell_price : ℚ
  spread_pct : ℚ
  net_spread_pct : ℚ
  potential_profit : ℚ
  quantity : ℚ
  is_actionable : Bool
deriving DecidableEq, Repr

/-- `TradeResult` from `types.rs`; the UUID fields are omitted and
`executed_at` is a millisecond timestamp. -/
structure TradeResult where
  pair : String
  buy_exchange : Exchange
  sell_exchange : Exchange
  buy_price : ℚ
  sell_price : ℚ
  quantity : ℚ
  gross_profit : ℚ
  fees : ℚ
  net_profit : ℚ
  status : TradeStatus
  executed_at : ℕ
deriving DecidableEq, Repr

/-- `EngineConfig` from `config.rs` (the fields used by the core:
`scan_interval_ms` and `api_port` are unused by the verified code). -/
structure EngineConfig where
  min_spread_pct : ℚ
  simulation_mode : Bool
deriving DecidableEq, Repr

/-- `TradingConfig` from `config.rs` (fields used by the core). -/
structure TradingConfig where
  max_trade_qty : ℚ
  order_type : String
deriving DecidableEq, Repr

/-- `RiskConfig` from `config.rs` (fields used by the core;
`trade_cooldown_ms` is a `u64` in the source, modelled as `ℕ`). -/
structure RiskConfig where
  max_position : ℚ
  max_daily_loss : ℚ
  trade_cooldown_ms : ℕ
deriving DecidableEq, Repr

/-- `Config` from `config.rs` (the per-exchange credential map is not
touched by the verified core paths). -/
structure Config where
  engine : EngineConfig
  trading : TradingConfig
  risk : RiskConfig
deriving DecidableEq, Repr

/-- The slice of the `ExchangeConnector` trait (`exchange/mod.rs`) the
detector and executor read synchronously: venue identity and taker fee. -/
structure Connector where
  exchange : Exchange
  fee_pct : ℚ
deriving DecidableEq, Repr

/-- Fee lookup shared by `ArbitrageDetector::evaluate_spread`
(`arbitrage.rs` lines 162-172, inlined there) and
`OrderExecutor::get_fee` (`executor.rs` lines 230-236): find the
connector for the venue, defaulting to `dec!(0.1)` when absent. -/
def get_fee (connectors : List Connector) (exchange : Exchange) : ℚ :=
  match connectors.find? (fun c => c.exchange = exchange) with
  | some c => c.fee_pct
  | none => 1/10

/-- `ArbitrageDetector::evaluate_spread` (`arbitrage.rs` lines 144-213):
returns the opportunity sent on `opp_tx`, or `none` when the direction
is skipped.  The `quantity` is `config.trading.max_trade_qty`. -/
def evaluate_spread (connectors : List Connector) (config : Config)
    (buy_ticker sell_ticker : Ticker) : Option ArbitrageOpportunity :=
  let buy_price := buy_ticker.ask
  let sell_price := sell_ticker.bid
  if buy_price ≤ 0 ∨ sell_price ≤ 0 then
    none
  else
    let spread_pct := ((sell_price - buy_price) / buy_price) * 100
    let buy_fee := get_fee connectors buy_ticker.exchange
    let sell_fee := get_fee connectors sell_ticker.exchange
    let total_fees := buy_fee + sell_fee
    let net_spread_pct := spread_pct - total_fees
    if net_spread_pct > config.engine.min_spread_pct then
      some
        { pair := buy_ticker.pair
          buy_exchange := buy_ticker.exchange
          sell_exchange := sell_ticker.exchange
          buy_price := buy_price
          sell_price := sell_price
          spread_pct := spread_pct
          net_spread_pct := net_spread_pct
          potential_profit :=
            config.trading.max_trade_qty * (sell_price - buy_price)
              - config.trading.max_trade_qty * buy_price * (buy_fee / 100)
              - config.trading.max_trade_qty * sell_price * (sell_fee / 100)
          quantity := config.trading.max_trade_qty
          is_actionable := decide (net_spread_pct > 0) }
    else
      none

/-! ### Order executor (`executor.rs`) -/

/-- An order request dispatched to a venue via
`ExchangeConnector::place_order` (`executor.rs` lines 179-193). -/
structure OrderRequest where
  exchange : Exchange
  side : OrderSide
  order_type : OrderType
  quantity : ℚ
  price : Option ℚ
deriving DecidableEq, Repr

/-- `OrderExecutor` state (`executor.rs` lines 15-28): trade history,
counters, accumulated daily loss, last-trade timestamp, plus the
sequence of `TradeResult`s sent on the `trade_tx` broadcast channel. -/
structure ExecState where
  trades : List TradeResult
  total_trades : ℕ
  total_profit : ℚ
  daily_loss : ℚ
  last_trade_at : Option ℕ
  broadcast : List TradeResult
deriving DecidableEq, Repr

/-- `OrderExecutor::new` (`executor.rs` lines 31-46): empty history,
zero counters, no last trade. -/
def initExecState : ExecState :=
  { trades := [], total_trades := 0, total_profit := 0, daily_loss := 0
    last_trade_at := none, broadcast := [] }

/-- `OrderExecutor::check_risk_limits` (`executor.rs` lines 106-123).
The source interpolates the numbers into the message; the model keeps
the fixed prefix only. -/
def check_risk_limits (config : Config) (daily_loss : ℚ)
    (opp : ArbitrageOpportunity) : Except String Unit :=
  if daily_loss ≥ config.risk.max_daily_loss then
    Except.error "Daily loss limit reached"
  else if opp.quantity > config.risk.max_position then
    Except.error "Position too large"
  else
    Except.ok ()

/-- The outcome, per opportunity, of the environment's two
`place_order` calls in live mode: whether the buy leg and the sell leg
succeed. -/
structure LegOutcome where
  buyOk : Bool
  sellOk : Bool
deriving DecidableEq, Repr

/-- `OrderExecutor::execute_trade` (`executor.rs` lines 126-228),
returning the result together with the list of orders actually
dispatched (empty in simulation mode and when a connector is missing).
`now` stands for the `Utc::now()` captured in the produced
`TradeResult`. -/
def execute_trade (connectors : List Connector) (config : Config)
    (opp : ArbitrageOpportunity) (now : ℕ) (legs : LegOutcome) :
    Except String TradeResult × List OrderRequest :=
  if config.engine.simulation_mode then
    let buy_fee := get_fee connectors opp.buy_exchange
    let sell_fee := get_fee connectors opp.sell_exchange
    let gross_profit := opp.quantity * (opp.sell_price - opp.buy_price)
    let fees := opp.quantity * opp.buy_price * (buy_fee / 100)
      + opp.quantity * opp.sell_price * (sell_fee / 100)
    let net_profit := gross_profit - fees
    (Except.ok
      { pair := opp.pair
        buy_exchange := opp.buy_exchange
        sell_exchange := opp.sell_exchange
        buy_price := opp.buy_price
        sell_price := opp.sell_price
        quantity := opp.quantity
        gross_profit := gross_profit
        fees := fees
        net_profit := net_profit
        status := TradeStatus.filled
        executed_at := now }, [])
  else
    match connectors.find? (fun c => c.exchange = opp.buy_exchange) with
    | none => (Except.error "Buy exchange connector not found", [])
    | some buy_connector =>
      match connectors.find? (fun c => c.exchange = opp.sell_exchange) with
      | none => (Except.error "Sell exchange connector not found", [])
      | some sell_connector =>
        let order_type :=
          if config.trading.order_type = "limit" then OrderType.limit
          else OrderType.market
        let requests : List OrderRequest :=
          [{ exchange := opp.buy_exchange, side := OrderSide.buy
             order_type := order_type, quantity := opp.quantity
             price := some opp.buy_price },
           { exchange := opp.sell_exchange, side := OrderSide.sell
             order_type := order_type, quantity := opp.quantity
             price := some opp.sell_price }]
        if legs.buyOk = false ∧ legs.sellOk = false then
          (Except.error "Both orders failed", requests)
        else
          let status :=
            if legs.buyOk ∧ legs.sellOk then TradeStatus.filled
            else TradeStatus.partialFill
          let buy_fee := buy_connector.fee_pct
          let sell_fee := sell_connector.fee_pct
          let gross_profit := opp.quantity * (opp.sell_price - opp.buy_price)
          let fees := opp.quantity * opp.buy_price * (buy_fee / 100)
            + opp.quantity * opp.sell_price * (sell_fee / 100)
          (Except.ok
            { pair := opp.pair
              buy_exchange := opp.buy_exchange
              sell_exchange := opp.sell_exchange
              buy_price := opp.buy_price
              sell_price := opp.sell_price
              quantity := opp.quantity
              gross_profit := gross_profit
              fees := fees
              net_profit := gross_profit - fees
              status := status
              executed_at := now }, requests)

/-- One opportunity as the executor loop receives it: the opportunity,
the wall-clock instant (ms) at which the loop processes it, and the
environment's response to the two order legs. -/
structure OppInput where
  opp : ArbitrageOpportunity
  now : ℕ
  legs : LegOutcome
deriving DecidableEq, Repr

/-- What one iteration of `OrderExecutor::start` does with an
opportunity, distinguishing the silent skips from the logged paths:
`notActionable` (silent `continue`, line 53), `riskRejected` (the
`warn!` at line 59), `cooldownSkip` (silent `continue`, line 67),
`execFailed` (the `error!` at line 99), `executed` (trade recorded and
broadcast, lines 74-97). -/
inductive StepOutcome where
  | notActionable
  | riskRejected (reason : String)
  | cooldownSkip
  | execFailed (msg : String)
  | executed (t : TradeResult)
deriving DecidableEq, Repr

/-- Whether the iteration writes a log line for the opportunity
(`warn!` on risk rejection, `error!` on execution failure, `info!` on
success); the two `continue`s are silent. -/
def StepOutcome.logged : StepOutcome → Bool
  | .notActionable => false
  | .riskRejected _ => true
  | .cooldownSkip => false
  | .execFailed _ => true
  | .executed _ => true

/-- The elapsed-milliseconds computation of `executor.rs` line 65:
`(Utc::now() - last).num_milliseconds() as u64`, i.e. a signed
difference wrapped into `u64`. -/
def elapsedU64 (now last : ℕ) : ℕ :=
  (((now : ℤ) - (last : ℤ)) % (2 ^ 64 : ℤ)).toNat

/-- State update on a successful trade (`executor.rs` lines 74-97):
bump the counters, add `|net_profit|` to the daily loss when negative,
set the last-trade timestamp, append to history and broadcast. -/
def applyTrade (s : ExecState) (t : TradeResult) (now : ℕ) : ExecState :=
  { trades := s.trades ++ [t]
    total_trades := s.total_trades + 1
    total_profit := s.total_profit + t.net_profit
    daily_loss := if t.net_profit < 0 then s.daily_loss + |t.net_profit| else s.daily_loss
    last_trade_at := some now
    broadcast := s.broadcast ++ [t] }

/-- The cooldown gate of `executor.rs` lines 63-69. -/
def cooldownBlocked (config : Config) (s : ExecState) (now : ℕ) : Bool :=
  match s.last_trade_at with
  | none => false
  | some last => elapsedU64 now last < config.risk.trade_cooldown_ms

/-- One iteration of the `while let` loop in `OrderExecutor::start`
(`executor.rs` lines 52-102). -/
def executor_step (connectors : List Connector) (config : Config)
    (s : ExecState) (i : OppInput) : ExecState × StepOutcome :=
  if i.opp.is_actionable = false then
    (s, StepOutcome.notActionable)
  else
    match check_risk_limits config s.daily_loss i.opp with
    | Except.error reason => (s, StepOutcome.riskRejected reason)
    | Except.ok () =>
      if cooldownBlocked config s i.now then
        (s, StepOutcome.cooldownSkip)
      else
        match (execute_trade connectors config i.opp i.now i.legs).1 with
        | Except.error e => (s, StepOutcome.execFailed e)
        | Except.ok t => (applyTrade s t i.now, StepOutcome.executed t)

/-- The executor loop run over a finite prefix of the opportunity
channel. -/
def runFrom (connectors : List Connector) (config : Config) :
    ExecState → List OppInput → ExecState
  | s, [] => s
  | s, i :: rest => runFrom connectors config (executor_step connectors config s i).1 rest

/-- The trace of the executor loop: for every processed opportunity,
the state the iteration started from and what the iteration did. -/
def traceFrom (connectors : List Connector) (config : Config) :
    ExecState → List OppInput → List (ExecState × StepOutcome)
  | _, [] => []
  | s, i :: rest =>
    (s, (executor_step connectors config s i).2) ::
      traceFrom connectors config (executor_step connectors config s i).1 rest

/-- The daily-loss aggregate the claims describe: the sum of
`|net_profit|` over the trades with strictly negative net profit. -/
def lossSum : List TradeResult → ℚ
  | [] => 0
  | t :: ts => (if t.net_profit < 0 then |t.net_profit| else 0) + lossSum ts

/-- Run invariant for the cooldown analysis: the last-trade timestamp
is the `executed_at` of the most recently broadcast trade, and
consecutive broadcast trades are at least one cooldown apart. -/
def cooldownInv (config : Config) (s : ExecState) : Prop :=
  s.last_trade_at = (s.broadcast.getLast?).map TradeResult.executed_at ∧
    List.Chain' (fun a b => a.executed_at + config.risk.trade_cooldown_ms ≤ b.executed_at)
      s.broadcast

/-! ### Connector subscription loops (`bybit.rs`, `bitget.rs`) -/

/-- How one pass through the outer `loop` of `subscribe_ticker` ends.
Each case abstracts the events of one connection attempt:
`connectFail` — `connect_async` returns `Err`; `subWriteFail` — the
`write.send` of the subscribe frame fails; `sessionDrop` — the read
loop ends because of a socket error (`Err` frame, `break`) or because
the socket closes (`read.next()` returns `None`); `receiverGone` — a
`tx.send` fails because the subscriber dropped the channel. -/
inductive ConnAttempt where
  | connectFail
  | subWriteFail
  | sessionDrop
  | receiverGone
deriving DecidableEq, Repr

/-- What the task does next after one pass through the outer loop:
fall through to the `sleep` at the bottom and reconnect
(`backoffRetry`, with the sleep length in seconds), jump back to the
top of the loop without sleeping (`immediateRetry`, a `continue`), or
return from the spawned task (`taskExit`). -/
inductive LoopStep where
  | backoffRetry (sleepSecs : ℕ)
  | immediateRetry
  | taskExit
deriving DecidableEq, Repr

/-- The outer reconnect loop of `BybitConnector::subscribe_ticker`
(`bybit.rs` lines 86-222): connect failure and session drop fall
through to the `sleep(1)` at lines 219-220; a subscribe-write failure
hits the `continue` at line 97, which restarts the loop WITHOUT the
sleep; a dropped receiver hits the `return` at line 194. -/
def bybit_loop_step : ConnAttempt → LoopStep
  | .connectFail => .backoffRetry 1
  | .subWriteFail => .immediateRetry
  | .sessionDrop => .backoffRetry 1
  | .receiverGone => .taskExit

/-- The outer reconnect loop of `BitgetConnector::subscribe_ticker`
(`bitget.rs` lines 88-218): connect failure and session drop fall
through to the `sleep(1)` at lines 215-216; a subscribe-write failure
hits the `break` at line 99, which exits the outer loop so the spawned
task RETURNS; a dropped receiver hits the `return` at line 188. -/
def bitget_loop_step : ConnAttempt → LoopStep
  | .connectFail => .backoffRetry 1
  | .subWriteFail => .taskExit
  | .sessionDrop => .backoffRetry 1
  | .receiverGone => .taskExit

/-! ### Bybit delta-frame ticker parsing (`bybit.rs` lines 120-198) -/

/-- One parsed Bybit data frame (after the line-130 filter for
control frames).  `bidField` is the first of `bid1Price` / `bidPrice`
/ `bid1` that is present as a string and parses to a decimal (`none`
when all are absent or the string does not parse, which the code
treats identically: no update).  `lastPrice` and `volume24h` parse
with a zero default (lines 148-151). -/
structure BybitFrame where
  bidField : Option ℚ
  askField : Option ℚ
  lastPrice : ℚ
  volume24h : ℚ
deriving DecidableEq, Repr

/-- The per-subscription mutable pair `last_bid` / `last_ask` of
`bybit.rs` lines 123-124, starting at zero for each connection. -/
structure BybitTrack where
  last_bid : ℚ
  last_ask : ℚ
deriving DecidableEq, Repr

/-- Processing of one Bybit text frame (`bybit.rs` lines 148-198):
update the tracked bid/ask from fields that are present and positive,
fall back to `lastPrice` for a side whose tracked value is still zero,
and emit a `Ticker` iff both resulting prices are strictly positive. -/
def bybit_process (pair : String) (s : BybitTrack) (f : BybitFrame) :
    BybitTrack × Option Ticker :=
  let last_bid :=
    match f.bidField with
    | some v => if v > 0 then v else s.last_bid
    | none => s.last_bid
  let last_ask :=
    match f.askField with
    | some v => if v > 0 then v else s.last_ask
    | none => s.last_ask
  let bid := if last_bid > 0 then last_bid else f.lastPrice
  let ask := if last_ask > 0 then last_ask else f.lastPrice
  let out :=
    if bid > 0 ∧ ask > 0 then
      some { exchange := Exchange.bybit, pair := pair, bid := bid, ask := ask
             last := f.lastPrice, volume_24h := f.volume24h }
    else
      none
  (⟨last_bid, last_ask⟩, out)

/-! ### Concrete fixtures (spec §8 scenarios) -/

/-- A sample configuration matching scenario S1 of the spec
(`min_spread_pct = 0.1`, simulation mode, quantity 0.01). -/
def s1Config : Config :=
  { engine := { min_spread_pct := 1/10, simulation_mode := true }
    trading := { max_trade_qty := 1/100, order_type := "market" }
    risk := { max_position := 1/10, max_daily_loss := 100, trade_cooldown_ms := 1000 } }

/-- The S1 configuration switched to live mode. -/
def liveConfig : Config :=
  { engine := { min_spread_pct := 1/10, simulation_mode := false }
    trading := { max_trade_qty := 1/100, order_type := "market" }
    risk := { max_position := 1/10, max_daily_loss := 100, trade_cooldown_ms := 1000 } }

/-- S1 connectors: both venues charge a 0.1 % taker fee. -/
def s1Connectors : List Connector :=
  [{ exchange := .bybit, fee_pct := 1/10 }, { exchange := .bitget, fee_pct := 1/10 }]

/-- S1 buy-side ticker: venue A (Bybit), bid 50000, ask 50010. -/
def s1BuyTicker : Ticker :=
  { exchange := .bybit, pair := "BTC/USDT", bid := 50000, ask := 50010
    last := 50000, volume_24h := 0 }

/-- S1 sell-side ticker: venue B (Bitget), bid 50200, ask 50210. -/
def s1SellTicker : Ticker :=
  { exchange := .bitget, pair := "BTC/USDT", bid := 50200, ask := 50210
    last := 50200, volume_24h := 0 }

/-- The opportunity `evaluate_spread` emits at the S1 scenario inputs:
spread 1900/5001 ≈ 0.3799 %, net spread 4499/25005 ≈ 0.1799 %,
potential profit 0.8979. -/
def s1Opportunity : ArbitrageOpportunity :=
  { pair := "BTC/USDT"
    buy_exchange := .bybit
    sell_exchange := .bitget
    buy_price := 50010
    sell_price := 50200
    spread_pct := 1900/5001
    net_spread_pct := 4499/25005
    potential_profit := 8979/10000
    quantity := 1/100
    is_actionable := true }

/-- An actionable opportunity carried to a live-mode run with no
connectors configured: `execute_trade` fails with a missing buy
connector. -/
def missingConnInput : OppInput :=
  { opp := s1Opportunity, now := 5, legs := { buyOk := true, sellOk := true } }

/-- The S1 opportunity arriving at t = 5 ms in simulation mode. -/
def simInput : OppInput :=
  { opp := s1Opportunity, now := 5, legs := { buyOk := true, sellOk := true } }

/-- The simulated fill the executor records for `simInput` under
`s1Config`. -/
def simTrade : TradeResult :=
  { pair := "BTC/USDT"
    buy_exchange := .bybit
    sell_exchange := .bitget
    buy_price := 50010
    sell_price := 50200
    quantity := 1/100
    gross_profit := 19/10
    fees := 10021/10000
    net_profit := 8979/10000
    status := TradeStatus.filled
    executed_at := 5 }

/-- The S1 opportunity arriving again 595 ms after the `simInput`
trade — inside the 1000 ms cooldown window. -/
def burstInput : OppInput :=
  { opp := s1Opportunity, now := 600, legs := { buyOk := true, sellOk := true } }

end Arbiter

/-! ## Theorems -/

namespace Arbiter

/-- C1: `evaluate_spread` emits an opportunity iff the buy ask and the
sell bid are strictly positive and the net spread (gross spread minus
the two venues' fee percentages) strictly exceeds
`config.engine.min_spread_pct`. -/
theorem emission_gate_iff (connectors : List Connector) (config : Config)
    (bt st : Ticker) :
    (evaluate_spread connectors config bt st).isSome ↔
      0 < bt.ask ∧ 0 < st.bid ∧
        ((st.bid - bt.ask) / bt.ask) * 100
            - (get_fee connectors bt.exchange + get_fee connectors st.exchange)
          > config.engine.min_spread_pct := by
  simp only [evaluate_spread]
  split_ifs with h hg
  · simp only [Option.isSome_none, Bool.false_eq_true, false_iff]
    rintro ⟨h1, h2, -⟩
    rcases h with h | h
    · exact absurd h1 (not_lt.mpr h)
    · exact absurd h2 (not_lt.mpr h)
  · push_neg at h
    simp only [Option.isSome_some, true_iff]
    exact ⟨h.1, h.2, hg⟩
  · push_neg at h
    simp only [Option.isSome_none, Bool.false_eq_true, false_iff]
    rintro ⟨-, -, h3⟩
    exact hg h3

/-- C2: whenever `evaluate_spread` emits an opportunity, its recorded
`buy_price` is the buy ticker's ask, its `sell_price` is the sell
ticker's bid, and `spread_pct` is exactly
`((sell_price - buy_price) / buy_price) * 100` in exact decimal
(rational) arithmetic. -/
theorem spread_pct_formula (connectors : List Connector) (config : Config)
    (bt st : Ticker) (opp : ArbitrageOpportunity)
    (h : evaluate_spread connectors config bt st = some opp) :
    opp.buy_price = bt.ask ∧ opp.sell_price = st.bid ∧
      opp.spread_pct = ((st.bid - bt.ask) / bt.ask) * 100 := by
  simp only [evaluate_spread] at h
  split_ifs at h
  cases h
  exact ⟨rfl, rfl, rfl⟩

/-- Fee lookups on the S1 connector list. -/
theorem s1_get_fee_bybit : get_fee s1Connectors .bybit = 1/10 := rfl

/-- Fee lookups on the S1 connector list. -/
theorem s1_get_fee_bitget : get_fee s1Connectors .bitget = 1/10 := rfl

/-- `evaluate_spread` at the S1 inputs produces `s1Opportunity`. -/
theorem s1_evaluate_spread_eq :
    evaluate_spread s1Connectors s1Config s1BuyTicker s1SellTicker = some s1Opportunity := by
  norm_num [evaluate_spread, s1_get_fee_bybit, s1_get_fee_bitget, s1Config, s1BuyTicker,
    s1SellTicker, s1Opportunity]

/-- Witness for C2 at the S1 scenario inputs. -/
theorem spread_pct_formula_witness :
    ∃ opp, evaluate_spread s1Connectors s1Config s1BuyTicker s1SellTicker = some opp ∧
      (opp.buy_price = s1BuyTicker.ask ∧ opp.sell_price = s1SellTicker.bid ∧
        opp.spread_pct = ((s1SellTicker.bid - s1BuyTicker.ask) / s1BuyTicker.ask) * 100) :=
  ⟨s1Opportunity, s1_evaluate_spread_eq,
    spread_pct_formula s1Connectors s1Config s1BuyTicker s1SellTicker s1Opportunity
      s1_evaluate_spread_eq⟩

/-- C9: every opportunity emitted by `evaluate_spread` has
`is_actionable` true exactly when its `net_spread_pct` is strictly
positive; and when `min_spread_pct ≥ 0` every emitted opportunity is
actionable. -/
theorem actionable_iff_net_positive (connectors : List Connector) (config : Config)
    (bt st : Ticker) (opp : ArbitrageOpportunity)
    (h : evaluate_spread connectors config bt st = some opp) :
    (opp.is_actionable = true ↔ 0 < opp.net_spread_pct) ∧
      (0 ≤ config.engine.min_spread_pct → opp.is_actionable = true) := by
  simp only [evaluate_spread] at h
  split_ifs at h with h0 hg
  cases h
  refine ⟨by simp [decide_eq_true_eq], fun hmin => ?_⟩
  simp only [decide_eq_true_eq]
  exact lt_of_le_of_lt hmin hg

/-- Witness for C9 at the S1 inputs (`min_spread_pct = 0.1 ≥ 0`). -/
theorem actionable_iff_net_positive_witness :
    s1Opportunity.is_actionable = true ∧ 0 < s1Opportunity.net_spread_pct := by
  have h := actionable_iff_net_positive s1Connectors s1Config s1BuyTicker s1SellTicker
    s1Opportunity s1_evaluate_spread_eq
  have ha : s1Opportunity.is_actionable = true := h.2 (by norm_num [s1Config])
  exact ⟨ha, h.1.mp ha⟩

/-- C3: in simulation mode `execute_trade` dispatches no orders and
returns a `Filled` trade whose gross profit, fees and net profit are
computed from the opportunity's prices and the connectors' fee
percentages. -/
theorem sim_mode_fill (connectors : List Connector) (config : Config)
    (opp : ArbitrageOpportunity) (now : ℕ) (legs : LegOutcome)
    (hsim : config.engine.simulation_mode = true) :
    (execute_trade connectors config opp now legs).2 = [] ∧
      (execute_trade connectors config opp now legs).1 = Except.ok
        { pair := opp.pair
          buy_exchange := opp.buy_exchange
          sell_exchange := opp.sell_exchange
          buy_price := opp.buy_price
          sell_price := opp.sell_price
          quantity := opp.quantity
          gross_profit := opp.quantity * (opp.sell_price - opp.buy_price)
          fees := opp.quantity * opp.buy_price * (get_fee connectors opp.buy_exchange / 100)
            + opp.quantity * opp.sell_price * (get_fee connectors opp.sell_exchange / 100)
          net_profit := opp.quantity * (opp.sell_price - opp.buy_price)
            - (opp.quantity * opp.buy_price * (get_fee connectors opp.buy_exchange / 100)
              + opp.quantity * opp.sell_price * (get_fee connectors opp.sell_exchange / 100))
          status := TradeStatus.filled
          executed_at := now } := by
  simp only [execute_trade, hsim, if_true]
  exact ⟨trivial, trivial⟩

/-- Witness for C3 at the S1 numbers: quantity 0.01, buy 50010,
sell 50200, 0.1 % fees on both venues give net profit 0.8979 with no
order dispatched. -/
theorem sim_mode_fill_witness :
    (execute_trade s1Connectors s1Config s1Opportunity 0 ⟨true, true⟩).2 = [] ∧
      ∃ t, (execute_trade s1Connectors s1Config s1Opportunity 0 ⟨true, true⟩).1 = Except.ok t ∧
        t.status = TradeStatus.filled ∧ t.gross_profit = 19/10 ∧
          t.fees = 10021/10000 ∧ t.net_profit = 8979/10000 := by
  have h := sim_mode_fill s1Connectors s1Config s1Opportunity 0 ⟨true, true⟩ rfl
  refine ⟨h.1, _, h.2, rfl, ?_, ?_, ?_⟩
  · norm_num [s1Opportunity]
  · norm_num [s1Opportunity, s1_get_fee_bybit, s1_get_fee_bitget]
  · norm_num [s1Opportunity, s1_get_fee_bybit, s1_get_fee_bitget]

/-- Helper: if `execute_trade` fails for an input, no path through the
executor iteration changes the state. -/
theorem step_fixed_of_exec_error (connectors : List Connector) (config : Config)
    (s : ExecState) (i : OppInput) (e : String)
    (he : (execute_trade connectors config i.opp i.now i.legs).1 = Except.error e) :
    (executor_step connectors config s i).1 = s := by
  unfold executor_step
  by_cases ha : i.opp.is_actionable = false
  · simp [ha]
  · simp only [ha, if_false]
    cases hr : check_risk_limits config s.daily_loss i.opp with
    | error r => simp
    | ok u =>
      cases u
      by_cases hc : cooldownBlocked config s i.now
      · simp [hc]
      · simp [hc, he]

/-- C10: when `execute_trade` returns an error (both legs failed or a
connector is missing), the executor state — trade history, counters,
daily loss, last-trade timestamp and the broadcast channel — is left
exactly as it was, the iteration's outcome is the logged
`execFailed`, and the loop goes on to process the remaining
opportunities. -/
theorem exec_error_no_state_change (connectors : List Connector) (config : Config)
    (s : ExecState) (i : OppInput) (e : String) (rest : List OppInput)
    (he : (execute_trade connectors config i.opp i.now i.legs).1 = Except.error e) :
    (executor_step connectors config s i).1 = s ∧
      runFrom connectors config s (i :: rest) = runFrom connectors config s rest ∧
      (i.opp.is_actionable = true →
        check_risk_limits config s.daily_loss i.opp = Except.ok () →
        cooldownBlocked config s i.now = false →
        executor_step connectors config s i = (s, StepOutcome.execFailed e)) := by
  refine ⟨step_fixed_of_exec_error connectors config s i e he, ?_, ?_⟩
  · show runFrom connectors config (executor_step connectors config s i).1 rest = _
    rw [step_fixed_of_exec_error connectors config s i e he]
  · intro ha hr hc
    unfold executor_step
    rw [ha]
    simp only [Bool.true_eq_false, if_false, hr, hc, Bool.false_eq_true, he]

/-- Witness for C10: with no connectors in live mode, `execute_trade`
errors and the executor state survives untouched. -/
theorem exec_error_no_state_change_witness :
    (executor_step [] liveConfig initExecState missingConnInput).1 = initExecState ∧
      runFrom [] liveConfig initExecState [missingConnInput]
        = runFrom [] liveConfig initExecState [] ∧
      executor_step [] liveConfig initExecState missingConnInput
        = (initExecState, StepOutcome.execFailed "Buy exchange connector not found") := by
  have he : (execute_trade [] liveConfig missingConnInput.opp missingConnInput.now
      missingConnInput.legs).1 = Except.error "Buy exchange connector not found" := rfl
  have h := exec_error_no_state_change [] liveConfig initExecState missingConnInput
    "Buy exchange connector not found" [] he
  refine ⟨h.1, h.2.1, h.2.2 rfl ?_ ?_⟩
  · norm_num [check_risk_limits, initExecState, liveConfig, missingConnInput, s1Opportunity]
  · rfl

/-- C5: in live mode with both connectors resolved, `execute_trade`
dispatches the paired buy and sell orders; both legs succeeding gives
a `Filled` result, exactly one succeeding gives `PartialFill` with the
profit accounting computed from the opportunity's prices, and both
legs failing yields an error — no `TradeResult` — after which the
executor loop continues with the remaining opportunities. -/
theorem live_mode_execution (connectors : List Connector) (config : Config)
    (opp : ArbitrageOpportunity) (now : ℕ) (legs : LegOutcome) (bc sc : Connector)
    (hlive : config.engine.simulation_mode = false)
    (hbc : connectors.find? (fun c => c.exchange = opp.buy_exchange) = some bc)
    (hsc : connectors.find? (fun c => c.exchange = opp.sell_exchange) = some sc) :
    (execute_trade connectors config opp now legs).2 =
      [{ exchange := opp.buy_exchange, side := OrderSide.buy
         order_type := if config.trading.order_type = "limit" then OrderType.limit
           else OrderType.market
         quantity := opp.quantity, price := some opp.buy_price },
       { exchange := opp.sell_exchange, side := OrderSide.sell
         order_type := if config.trading.order_type = "limit" then OrderType.limit
           else OrderType.market
         quantity := opp.quantity, price := some opp.sell_price }] ∧
    (legs = { buyOk := true, sellOk := true } →
      ∃ t, (execute_trade connectors config opp now legs).1 = Except.ok t ∧
        t.status = TradeStatus.filled) ∧
    (legs = { buyOk := true, sellOk := false } ∨ legs = { buyOk := false, sellOk := true } →
      ∃ t, (execute_trade connectors config opp now legs).1 = Except.ok t ∧
        t.status = TradeStatus.partialFill ∧
        t.buy_price = opp.buy_price ∧ t.sell_price = opp.sell_price ∧
        t.quantity = opp.quantity ∧
        t.gross_profit = opp.quantity * (opp.sell_price - opp.buy_price) ∧
        t.fees = opp.quantity * opp.buy_price * (bc.fee_pct / 100)
          + opp.quantity * opp.sell_price * (sc.fee_pct / 100) ∧
        t.net_profit = t.gross_profit - t.fees) ∧
    (legs = { buyOk := false, sellOk := false } →
      (execute_trade connectors config opp now legs).1 = Except.error "Both orders failed" ∧
      ∀ s rest, runFrom connectors config s ({ opp := opp, now := now, legs := legs } :: rest)
        = runFrom connectors config s rest) := by
  have hunfold :
      execute_trade connectors config opp now legs =
        (if legs.buyOk = false ∧ legs.sellOk = false then
          (Except.error "Both orders failed",
            [{ exchange := opp.buy_exchange, side := OrderSide.buy
               order_type := if config.trading.order_type = "limit" then OrderType.limit
                 else OrderType.market
               quantity := opp.quantity, price := some opp.buy_price },
             { exchange := opp.sell_exchange, side := OrderSide.sell
               order_type := if config.trading.order_type = "limit" then OrderType.limit
                 else OrderType.market
               quantity := opp.quantity, price := some opp.sell_price }])
        else
          (Except.ok
            { pair := opp.pair
              buy_exchange := opp.buy_exchange
              sell_exchange := opp.sell_exchange
              buy_price := opp.buy_price
              sell_price := opp.sell_price
              quantity := opp.quantity
              gross_profit := opp.quantity * (opp.sell_price - opp.buy_price)
              fees := opp.quantity * opp.buy_price * (bc.fee_pct / 100)
                + opp.quantity * opp.sell_price * (sc.fee_pct / 100)
              net_profit := opp.quantity * (opp.sell_price - opp.buy_price)
                - (opp.quantity * opp.buy_price * (bc.fee_pct / 100)
                  + opp.quantity * opp.sell_price * (sc.fee_pct / 100))
              status := if legs.buyOk ∧ legs.sellOk then TradeStatus.filled
                else TradeStatus.partialFill
              executed_at := now },
            [{ exchange := opp.buy_exchange, side := OrderSide.buy
               order_type := if config.trading.order_type = "limit" then OrderType.limit
                 else OrderType.market
               quantity := opp.quantity, price := some opp.buy_price },
             { exchange := opp.sell_exchange, side := OrderSide.sell
               order_type := if config.trading.order_type = "limit" then OrderType.limit
                 else OrderType.market
               quantity := opp.quantity, price := some opp.sell_price }])) := by
    unfold execute_trade
    rw [hlive]
    simp only [Bool.false_eq_true, if_false, hbc, hsc]
  refine ⟨?_, ?_, ?_, ?_⟩
  · rw [hunfold]
    by_cases hl : legs.buyOk = false ∧ legs.sellOk = false
    · rw [if_pos hl]
    · rw [if_neg hl]
  · rintro rfl
    have h1 : (execute_trade connectors config opp now { buyOk := true, sellOk := true }).1
        = Except.ok
          { pair := opp.pair, buy_exchange := opp.buy_exchange
            sell_exchange := opp.sell_exchange, buy_price := opp.buy_price
            sell_price := opp.sell_price, quantity := opp.quantity
            gross_profit := opp.quantity * (opp.sell_price - opp.buy_price)
            fees := opp.quantity * opp.buy_price * (bc.fee_pct / 100)
              + opp.quantity * opp.sell_price * (sc.fee_pct / 100)
            net_profit := opp.quantity * (opp.sell_price - opp.buy_price)
              - (opp.quantity * opp.buy_price * (bc.fee_pct / 100)
                + opp.quantity * opp.sell_price * (sc.fee_pct / 100))
            status := TradeStatus.filled, executed_at := now } := by
      rw [hunfold]
      norm_num
    exact ⟨_, h1, rfl⟩
  · have hp : ∀ legs2 : LegOutcome,
        (execute_trade connectors config opp now legs2).1 = Except.ok
          { pair := opp.pair, buy_exchange := opp.buy_exchange
            sell_exchange := opp.sell_exchange, buy_price := opp.buy_price
            sell_price := opp.sell_price, quantity := opp.quantity
            gross_profit := opp.quantity * (opp.sell_price - opp.buy_price)
            fees := opp.quantity * opp.buy_price * (bc.fee_pct / 100)
              + opp.quantity * opp.sell_price * (sc.fee_pct / 100)
            net_profit := opp.quantity * (opp.sell_price - opp.buy_price)
              - (opp.quantity * opp.buy_price * (bc.fee_pct / 100)
                + opp.quantity * opp.sell_price * (sc.fee_pct / 100))
            status := TradeStatus.partialFill, executed_at := now } →
        ∃ t, (execute_trade connectors config opp now legs2).1 = Except.ok t ∧
          t.status = TradeStatus.partialFill ∧
          t.buy_price = opp.buy_price ∧ t.sell_price = opp.sell_price ∧
          t.quantity = opp.quantity ∧
          t.gross_profit = opp.quantity * (opp.sell_price - opp.buy_price) ∧
          t.fees = opp.quantity * opp.buy_price * (bc.fee_pct / 100)
            + opp.quantity * opp.sell_price * (sc.fee_pct / 100) ∧
          t.net_profit = t.gross_profit - t.fees := by
      intro legs2 h2
      exact ⟨_, h2, rfl, rfl, rfl, rfl, rfl, rfl, rfl⟩
    rintro (rfl | rfl)
    · exact hp _ (by rw [hunfold]; norm_num)
    · exact hp _ (by rw [hunfold]; norm_num)
  · rintro rfl
    have he1 : (execute_trade connectors config opp now
        { buyOk := false, sellOk := false }).1 = Except.error "Both orders failed" := by
      rw [hunfold]; norm_num
    refine ⟨he1, fun s rest => ?_⟩
    show runFrom connectors config (executor_step connectors config s _).1 rest = _
    rw [step_fixed_of_exec_error connectors config s _ _ he1]

/-- Witness for C5: the S6 scenario — buy leg fills, sell leg fails —
on the S1 fixtures in live mode. -/
theorem live_mode_execution_witness :
    ∃ t, (execute_trade s1Connectors liveConfig s1Opportunity 7
        { buyOk := true, sellOk := false }).1 = Except.ok t ∧
      t.status = TradeStatus.partialFill ∧
      t.buy_price = s1Opportunity.buy_price ∧ t.sell_price = s1Opportunity.sell_price ∧
      t.quantity = s1Opportunity.quantity ∧
      t.gross_profit = s1Opportunity.quantity * (s1Opportunity.sell_price - s1Opportunity.buy_price) := by
  have h := live_mode_execution s1Connectors liveConfig s1Opportunity 7
    { buyOk := true, sellOk := false } { exchange := .bybit, fee_pct := 1/10 }
    { exchange := .bitget, fee_pct := 1/10 } rfl rfl rfl
  obtain ⟨t, ht, hst, hb, hs, hq, hg, -⟩ := h.2.2.1 (Or.inl rfl)
  exact ⟨t, ht, hst, hb, hs, hq, hg⟩

/-- Helper: `lossSum` over an appended trade. -/
theorem lossSum_append (l : List TradeResult) (t : TradeResult) :
    lossSum (l ++ [t]) = lossSum l + (if t.net_profit < 0 then |t.net_profit| else 0) := by
  induction l with
  | nil => simp [lossSum]
  | cons x xs ih => simp [lossSum, ih]; ring

/-- Helper: a passing risk check bounds the daily loss and the
quantity (`executor.rs` lines 106-123). -/
theorem check_ok_bounds (config : Config) (dl : ℚ) (opp : ArbitrageOpportunity)
    (h : check_risk_limits config dl opp = Except.ok ()) :
    dl < config.risk.max_daily_loss ∧ opp.quantity ≤ config.risk.max_position := by
  unfold check_risk_limits at h
  split_ifs at h with h1 h2
  exact ⟨not_le.mp h1, not_lt.mp h2⟩

/-- Helper: a trade returned by `execute_trade` carries the
opportunity's quantity and the capture time. -/
theorem execute_trade_ok_fields (connectors : List Connector) (config : Config)
    (opp : ArbitrageOpportunity) (now : ℕ) (legs : LegOutcome) (t : TradeResult)
    (h : (execute_trade connectors config opp now legs).1 = Except.ok t) :
    t.quantity = opp.quantity ∧ t.executed_at = now := by
  unfold execute_trade at h
  split at h
  · injection h with h1
    subst h1
    exact ⟨rfl, rfl⟩
  · split at h
    · injection h
    · split at h
      · injection h
      · split at h
        · split at h
          · injection h
          · injection h with h1
            subst h1
            exact ⟨rfl, rfl⟩
        · split at h
          · injection h
          · injection h with h1
            subst h1
            exact ⟨rfl, rfl⟩

/-- Helper: inversion of an iteration that recorded a trade — the
opportunity was actionable, the risk gate passed, the cooldown gate
passed, `execute_trade` succeeded with that trade, and the resulting
state is `applyTrade`. -/
theorem step_executed_inv (connectors : List Connector) (config : Config)
    (s : ExecState) (i : OppInput) (t : TradeResult)
    (h : (executor_step connectors config s i).2 = StepOutcome.executed t) :
    i.opp.is_actionable = true ∧
      check_risk_limits config s.daily_loss i.opp = Except.ok () ∧
      cooldownBlocked config s i.now = false ∧
      (execute_trade connectors config i.opp i.now i.legs).1 = Except.ok t ∧
      (executor_step connectors config s i).1 = applyTrade s t i.now := by
  have ha : ¬ i.opp.is_actionable = false := by
    intro ha
    rw [executor_step, if_pos ha] at h
    injection h
  have ha' : i.opp.is_actionable = true := by
    revert ha
    cases i.opp.is_actionable <;> simp
  rw [executor_step, if_neg ha] at h ⊢
  cases hr : check_risk_limits config s.daily_loss i.opp with
  | error r =>
    rw [hr] at h
    injection h
  | ok u =>
    cases u
    rw [hr] at h
    by_cases hc : cooldownBlocked config s i.now
    · rw [if_pos hc] at h
      injection h
    · rw [if_neg hc] at h
      rw [if_neg hc]
      cases hx : (execute_trade connectors config i.opp i.now i.legs).1 with
      | error e =>
        rw [hx] at h
        injection h
      | ok t2 =>
        rw [hx] at h
        injection h with h1
        subst h1
        exact ⟨ha', rfl, by simpa using hc, rfl, rfl⟩

/-- Helper: an iteration either leaves the state untouched or records
exactly one trade through `applyTrade`. -/
theorem step_dichotomy (connectors : List Connector) (config : Config)
    (s : ExecState) (i : OppInput) :
    (executor_step connectors config s i).1 = s ∨
      ∃ t, executor_step connectors config s i
        = (applyTrade s t i.now, StepOutcome.executed t) := by
  rw [executor_step]
  split
  · exact Or.inl rfl
  · split
    · exact Or.inl rfl
    · split
      · exact Or.inl rfl
      · split
        · exact Or.inl rfl
        · exact Or.inr ⟨_, rfl⟩

/-- Helper: every iteration preserves the accounting identity
`daily_loss = lossSum trades`. -/
theorem lossInv_step (connectors : List Connector) (config : Config)
    (s : ExecState) (i : OppInput)
    (h : s.daily_loss = lossSum s.trades) :
    ((executor_step connectors config s i).1).daily_loss
      = lossSum ((executor_step connectors config s i).1).trades := by
  rcases step_dichotomy connectors config s i with hfix | ⟨t, hstep⟩
  · rw [hfix]
    exact h
  · rw [hstep]
    simp only [applyTrade, lossSum_append, h]
    by_cases hneg : t.net_profit < 0
    · rw [if_pos hneg, if_pos hneg]
    · rw [if_neg hneg, if_neg hneg, add_zero]

/-- Helper: the C4 property over a run started at any state satisfying
the accounting identity. -/
theorem risk_limits_enforced_aux (connectors : List Connector) (config : Config) :
    ∀ (inputs : List OppInput) (s : ExecState),
      s.daily_loss = lossSum s.trades →
      ∀ pre out, (pre, out) ∈ traceFrom connectors config s inputs →
      ∀ t, out = StepOutcome.executed t →
        t.quantity ≤ config.risk.max_position ∧
          pre.daily_loss < config.risk.max_daily_loss ∧
          pre.daily_loss = lossSum pre.trades := by
  intro inputs
  induction inputs with
  | nil =>
    intro s _ pre out hmem
    simp [traceFrom] at hmem
  | cons i rest ih =>
    intro s hinv pre out hmem t hout
    rw [traceFrom, List.mem_cons] at hmem
    cases hmem with
    | inl hhead =>
      injection hhead with hpre hsnd
      have hout2 : (executor_step connectors config s i).2 = StepOutcome.executed t := by
        rw [← hsnd, hout]
      have hstep := step_executed_inv connectors config s i t hout2
      have hbounds := check_ok_bounds config s.daily_loss i.opp hstep.2.1
      have hq := (execute_trade_ok_fields connectors config i.opp i.now i.legs t
        hstep.2.2.2.1).1
      subst hpre
      exact ⟨hq ▸ hbounds.2, hbounds.1, hinv⟩
    | inr htail =>
      exact ih (executor_step connectors config s i).1
        (lossInv_step connectors config s i hinv) pre out htail t hout

/-- C4: along any run of the executor from its initial state, every
recorded `TradeResult` has `quantity ≤ max_position`, and at the
moment it is produced the accumulated `daily_loss` — which always
equals the sum of `|net_profit|` over the prior trades with negative
net profit — is strictly below `max_daily_loss`. -/
theorem risk_limits_enforced (connectors : List Connector) (config : Config)
    (inputs : List OppInput) (pre : ExecState) (out : StepOutcome) (t : TradeResult)
    (hmem : (pre, out) ∈ traceFrom connectors config initExecState inputs)
    (hout : out = StepOutcome.executed t) :
    t.quantity ≤ config.risk.max_position ∧
      pre.daily_loss < config.risk.max_daily_loss ∧
      pre.daily_loss = lossSum pre.trades :=
  risk_limits_enforced_aux connectors config inputs initExecState rfl pre out hmem t hout

/-- Helper: the simulated S1 execution produces `simTrade`. -/
theorem sim_exec_eq :
    (execute_trade s1Connectors s1Config simInput.opp simInput.now simInput.legs).1
      = Except.ok simTrade := by
  norm_num [execute_trade, simInput, s1Config, s1Opportunity, simTrade,
    s1_get_fee_bybit, s1_get_fee_bitget]

/-- Helper: the first executor iteration on `simInput` records
`simTrade`. -/
theorem sim_step_eq :
    executor_step s1Connectors s1Config initExecState simInput
      = (applyTrade initExecState simTrade 5, StepOutcome.executed simTrade) := by
  have hrisk : check_risk_limits s1Config initExecState.daily_loss simInput.opp
      = Except.ok () := by
    norm_num [check_risk_limits, initExecState, s1Config, simInput, s1Opportunity]
  have hcool : ¬ (cooldownBlocked s1Config initExecState simInput.now = true) := by
    simp [cooldownBlocked, initExecState]
  rw [executor_step, if_neg (by norm_num [simInput, s1Opportunity]), hrisk, if_neg hcool,
    sim_exec_eq]
  rfl

/-- Witness for C4: the single-trade simulation run satisfies both
risk bounds, applied through the main theorem. -/
theorem risk_limits_enforced_witness :
    simTrade.quantity ≤ s1Config.risk.max_position ∧
      initExecState.daily_loss < s1Config.risk.max_daily_loss ∧
      initExecState.daily_loss = lossSum initExecState.trades := by
  have hmem : (initExecState, StepOutcome.executed simTrade)
      ∈ traceFrom s1Connectors s1Config initExecState [simInput] := by
    simp [traceFrom, sim_step_eq]
  exact risk_limits_enforced s1Connectors s1Config [simInput] initExecState
    (StepOutcome.executed simTrade) simTrade hmem rfl

/-- Helper: the wrapped elapsed time is the plain difference modulo
`2 ^ 64` whenever the clock did not go backwards. -/
theorem elapsedU64_eq (now last : ℕ) (h : last ≤ now) :
    elapsedU64 now last = (now - last) % 2 ^ 64 := by
  unfold elapsedU64
  have h2 : (now : ℤ) - last = ((now - last : ℕ) : ℤ) := by omega
  rw [h2]
  norm_num
  omega

/-- Helper: a recorded trade implies the cooldown had elapsed —
`last + cooldown ≤ now` for a monotone clock. -/
theorem executed_gap (config : Config) (s : ExecState) (now last : ℕ)
    (hlast : s.last_trade_at = some last) (hle : last ≤ now)
    (hc : cooldownBlocked config s now = false) :
    last + config.risk.trade_cooldown_ms ≤ now := by
  rw [cooldownBlocked, hlast] at hc
  have hge : config.risk.trade_cooldown_ms ≤ elapsedU64 now last := by
    have := of_decide_eq_false hc
    omega
  rw [elapsedU64_eq now last hle] at hge
  have := Nat.mod_le (now - last) (2 ^ 64)
  omega

/-- Helper: the cooldown invariant survives every iteration of a run
whose arrival times never precede the recorded last-trade time. -/
theorem cooldown_run_aux (connectors : List Connector) (config : Config) :
    ∀ (inputs : List OppInput) (s : ExecState),
      List.Pairwise (fun i j => i.now ≤ j.now) inputs →
      cooldownInv config s →
      (∀ last, s.last_trade_at = some last → ∀ i ∈ inputs, last ≤ i.now) →
      cooldownInv config (runFrom connectors config s inputs) := by
  intro inputs
  induction inputs with
  | nil =>
    intro s _ hinv _
    exact hinv
  | cons i rest ih =>
    intro s hmono hinv hbound
    obtain ⟨hhead, htail⟩ := List.pairwise_cons.mp hmono
    rw [runFrom]
    rcases step_dichotomy connectors config s i with hfix | ⟨t, hstep⟩
    · rw [hfix]
      refine ih s htail hinv ?_
      intro last hlast j hj
      exact hbound last hlast j (List.mem_cons_of_mem i hj)
    · have hout : (executor_step connectors config s i).2 = StepOutcome.executed t := by
        rw [hstep]
      have hinvstep := step_executed_inv connectors config s i t hout
      have htime := (execute_trade_ok_fields connectors config i.opp i.now i.legs t
        hinvstep.2.2.2.1).2
      rw [hstep]
      have hnew : cooldownInv config (applyTrade s t i.now) := by
        constructor
        · show some i.now = ((s.broadcast ++ [t]).getLast?).map TradeResult.executed_at
          rw [List.getLast?_concat]
          simp [htime]
        · show List.Chain' _ (s.broadcast ++ [t])
          rw [List.chain'_append]
          refine ⟨hinv.2, List.chain'_singleton t, ?_⟩
          intro x hx y hy
          rw [List.head?_cons, Option.mem_def, Option.some.injEq] at hy
          subst hy
          have hx' : s.broadcast.getLast? = some x := Option.mem_def.mp hx
          have hlast : s.last_trade_at = some x.executed_at := by
            rw [hinv.1, hx']
            rfl
          have hle : x.executed_at ≤ i.now :=
            hbound x.executed_at hlast i (List.mem_cons_self i rest)
          have := executed_gap config s i.now x.executed_at hlast hle hinvstep.2.2.1
          rw [htime]
          omega
      refine ih (applyTrade s t i.now) htail hnew ?_
      intro last hlast j hj
      have : last = i.now := by
        have : some last = some i.now := by
          rw [← hlast]
          rfl
        injection this
      subst this
      exact hhead j hj

/-- C6: (a) along any monotone-clock run from the initial state,
consecutive broadcast `TradeResult`s are at least one cooldown apart:
`executed_at[n] − executed_at[n−1] ≥ trade_cooldown_ms`; (b) an
actionable opportunity that passes the risk gate but arrives less than
`trade_cooldown_ms` after the last trade is skipped silently — the
state is unchanged, the outcome is `cooldownSkip`, and no log line is
written. -/
theorem cooldown_enforced (connectors : List Connector) (config : Config) :
    (∀ inputs : List OppInput,
      List.Pairwise (fun i j => i.now ≤ j.now) inputs →
      List.Chain' (fun a b => config.risk.trade_cooldown_ms ≤ b.executed_at - a.executed_at)
        (runFrom connectors config initExecState inputs).broadcast) ∧
    (∀ (s : ExecState) (i : OppInput) (last : ℕ),
      i.opp.is_actionable = true →
      check_risk_limits config s.daily_loss i.opp = Except.ok () →
      s.last_trade_at = some last →
      last ≤ i.now →
      i.now - last < config.risk.trade_cooldown_ms →
      config.risk.trade_cooldown_ms < 2 ^ 64 →
      executor_step connectors config s i = (s, StepOutcome.cooldownSkip) ∧
        StepOutcome.cooldownSkip.logged = false) := by
  constructor
  · intro inputs hmono
    have hinv0 : cooldownInv config initExecState := by
      constructor
      · rfl
      · exact List.chain'_nil
    have h := cooldown_run_aux connectors config inputs initExecState hmono hinv0
      (fun last hlast => by cases hlast)
    exact h.2.imp fun a b hab => by omega
  · intro s i last hact hrisk hlast hle hlt hbound
    have helapsed : elapsedU64 i.now last = i.now - last := by
      rw [elapsedU64_eq i.now last hle]
      exact Nat.mod_eq_of_lt (by omega)
    have hblocked : cooldownBlocked config s i.now = true := by
      rw [cooldownBlocked, hlast]
      show decide (elapsedU64 i.now last < config.risk.trade_cooldown_ms) = true
      rw [helapsed]
      exact decide_eq_true hlt
    have hnotfalse : ¬ i.opp.is_actionable = false := by
      rw [hact]
      intro hx
      cases hx
    refine ⟨?_, rfl⟩
    rw [executor_step, if_neg hnotfalse, hrisk, if_pos hblocked]

/-- Witness for C6: a one-trade run whose broadcast is
cooldown-spaced, and the in-window `burstInput` at t = 600 ms being
silently skipped after the t = 5 ms trade. -/
theorem cooldown_enforced_witness :
    List.Chain' (fun a b => s1Config.risk.trade_cooldown_ms ≤ b.executed_at - a.executed_at)
      (runFrom s1Connectors s1Config initExecState [simInput]).broadcast ∧
    executor_step s1Connectors s1Config (applyTrade initExecState simTrade 5) burstInput
      = (applyTrade initExecState simTrade 5, StepOutcome.cooldownSkip) := by
  have h := cooldown_enforced s1Connectors s1Config
  refine ⟨h.1 [simInput] (by simp), ?_⟩
  refine (h.2 (applyTrade initExecState simTrade 5) burstInput 5 rfl ?_ rfl ?_ ?_ ?_).1
  · norm_num [check_risk_limits, applyTrade, simTrade, initExecState, s1Config,
      burstInput, s1Opportunity]
  · norm_num [burstInput]
  · norm_num [burstInput, s1Config]
  · norm_num [s1Config]

/-- C7: what each connector's outer loop actually does, per event.
The claim says every socket error, socket close, or subscribe-write
failure leads to a 1-second backoff and a retry, and that the task
never terminates.  That holds for connect failures and session drops
on both venues — but on a subscribe-write failure Bybit retries
immediately (its `continue` skips the sleep) and Bitget's `break`
exits the reconnect loop, terminating the subscription task. -/
theorem subscribe_write_fail_divergence :
    bitget_loop_step ConnAttempt.subWriteFail = LoopStep.taskExit ∧
      bybit_loop_step ConnAttempt.subWriteFail = LoopStep.immediateRetry ∧
      bybit_loop_step ConnAttempt.connectFail = LoopStep.backoffRetry 1 ∧
      bybit_loop_step ConnAttempt.sessionDrop = LoopStep.backoffRetry 1 ∧
      bitget_loop_step ConnAttempt.connectFail = LoopStep.backoffRetry 1 ∧
      bitget_loop_step ConnAttempt.sessionDrop = LoopStep.backoffRetry 1 :=
  ⟨rfl, rfl, rfl, rfl, rfl, rfl⟩

/-- C8 counterexample: after a first frame carrying only
`bid1Price = 100` with `lastPrice = 99` (ask never seen), the Bybit
parser emits a ticker whose ask is the `lastPrice` fallback even
though the bid HAS been seen — refuting "lastPrice is used as a
fallback only when neither bid nor ask has ever been seen", under
which this frame would emit nothing. -/
theorem bybit_fallback_not_symmetric_only :
    bybit_process "BTC/USDT" { last_bid := 0, last_ask := 0 }
        { bidField := some 100, askField := none, lastPrice := 99, volume24h := 0 }
      = ({ last_bid := 100, last_ask := 0 },
          some { exchange := Exchange.bybit, pair := "BTC/USDT", bid := 100, ask := 99
                 last := 99, volume_24h := 0 }) := by
  norm_num [bybit_process]

/-- C8 (amended): the Bybit parser keeps per-subscription last-known
bid and ask, updating each side only when the corresponding field is
present and positive in the current frame; it emits a ticker only when
both resulting prices are strictly positive; and `lastPrice` is used
as a fallback independently for each side whose tracked value is still
unseen (zero), regardless of the other side — in particular
symmetrically for both sides when neither has ever been seen. -/
theorem bybit_delta_tracking (pair : String) (s : BybitTrack) (f : BybitFrame)
    (tk : Ticker) (h : (bybit_process pair s f).2 = some tk) :
    (f.bidField = none → (bybit_process pair s f).1.last_bid = s.last_bid) ∧
    (∀ v, f.bidField = some v → v ≤ 0 → (bybit_process pair s f).1.last_bid = s.last_bid) ∧
    (∀ v, f.bidField = some v → 0 < v → (bybit_process pair s f).1.last_bid = v) ∧
    (f.askField = none → (bybit_process pair s f).1.last_ask = s.last_ask) ∧
    (∀ v, f.askField = some v → v ≤ 0 → (bybit_process pair s f).1.last_ask = s.last_ask) ∧
    (∀ v, f.askField = some v → 0 < v → (bybit_process pair s f).1.last_ask = v) ∧
    0 < tk.bid ∧ 0 < tk.ask ∧
    (0 < (bybit_process pair s f).1.last_bid → tk.bid = (bybit_process pair s f).1.last_bid) ∧
    ((bybit_process pair s f).1.last_bid ≤ 0 → tk.bid = f.lastPrice) ∧
    (0 < (bybit_process pair s f).1.last_ask → tk.ask = (bybit_process pair s f).1.last_ask) ∧
    ((bybit_process pair s f).1.last_ask ≤ 0 → tk.ask = f.lastPrice) := by
  have hbeq : (bybit_process pair s f).1.last_bid
      = match f.bidField with
        | some v => if v > 0 then v else s.last_bid
        | none => s.last_bid := rfl
  have haeq : (bybit_process pair s f).1.last_ask
      = match f.askField with
        | some v => if v > 0 then v else s.last_ask
        | none => s.last_ask := rfl
  have hout : (bybit_process pair s f).2
      = if (if (bybit_process pair s f).1.last_bid > 0
            then (bybit_process pair s f).1.last_bid else f.lastPrice) > 0
          ∧ (if (bybit_process pair s f).1.last_ask > 0
            then (bybit_process pair s f).1.last_ask else f.lastPrice) > 0
        then some { exchange := Exchange.bybit, pair := pair
                    bid := if (bybit_process pair s f).1.last_bid > 0
                      then (bybit_process pair s f).1.last_bid else f.lastPrice
                    ask := if (bybit_process pair s f).1.last_ask > 0
                      then (bybit_process pair s f).1.last_ask else f.lastPrice
                    last := f.lastPrice, volume_24h := f.volume24h }
        else none := rfl
  rw [hout] at h
  by_cases hgate : (if (bybit_process pair s f).1.last_bid > 0
      then (bybit_process pair s f).1.last_bid else f.lastPrice) > 0
      ∧ (if (bybit_process pair s f).1.last_ask > 0
        then (bybit_process pair s f).1.last_ask else f.lastPrice) > 0
  swap
  · rw [if_neg hgate] at h
    cases h
  rw [if_pos hgate, Option.some.injEq] at h
  subst h
  refine ⟨?_, ?_, ?_, ?_, ?_, ?_, ?_, ?_, ?_, ?_, ?_, ?_⟩
  · intro hb
    rw [hbeq, hb]
  · intro v hb hv
    rw [hbeq, hb]
    exact if_neg (not_lt.mpr hv)
  · intro v hb hv
    rw [hbeq, hb]
    exact if_pos hv
  · intro hb
    rw [haeq, hb]
  · intro v hb hv
    rw [haeq, hb]
    exact if_neg (not_lt.mpr hv)
  · intro v hb hv
    rw [haeq, hb]
    exact if_pos hv
  · exact hgate.1
  · exact hgate.2
  · intro hb
    exact if_pos hb
  · intro hb
    exact if_neg (not_lt.mpr hb)
  · intro hb
    exact if_pos hb
  · intro hb
    exact if_neg (not_lt.mpr hb)

/-- Witness for the amended C8 at a delta frame updating only the ask
while a bid is already tracked. -/
theorem bybit_delta_tracking_witness :
    ∃ tk, (bybit_process "BTC/USDT" { last_bid := 50000, last_ask := 50010 }
        { bidField := none, askField := some 50020, lastPrice := 50015, volume24h := 3 }).2
      = some tk ∧ 0 < tk.bid ∧ 0 < tk.ask ∧ tk.bid = 50000 ∧ tk.ask = 50020 := by
  have hout : (bybit_process "BTC/USDT" { last_bid := 50000, last_ask := 50010 }
      { bidField := none, askField := some 50020, lastPrice := 50015, volume24h := 3 }).2
      = some { exchange := Exchange.bybit, pair := "BTC/USDT", bid := 50000, ask := 50020
               last := 50015, volume_24h := 3 } := by
    norm_num [bybit_process]
  have h := bybit_delta_tracking "BTC/USDT" { last_bid := 50000, last_ask := 50010 }
    { bidField := none, askField := some 50020, lastPrice := 50015, volume24h := 3 } _ hout
  refine ⟨_, hout, h.2.2.2.2.2.2.1, h.2.2.2.2.2.2.2.1, ?_, ?_⟩
  · have hb := h.2.2.2.2.2.2.2.2.1 (by norm_num [bybit_process])
    rw [hb]
    norm_num [bybit_process]
  · have ha := h.2.2.2.2.2.2.2.2.2.2.1 (by norm_num [bybit_process])
    rw [ha]
    norm_num [bybit_process]

end Arbiter
